import Mathlib

/-!
Verification of the event-classification and date-inference engine of
`cleanup_telegram_message_past_events/telegram_cleanup_delete_past_events.py`.

The Python functions `is_weekly_summary`, `is_daily_summary`,
`extract_weekly_summary_date`, `extract_regular_event_date` and
`extract_event_date` are shallowly embedded below.  Python regular
expressions are embedded as explicit matchers over `List Char`; the
character classes of digits and whitespace are modelled over their ASCII
members (the texts of interest contain no exotic Unicode digits or
spaces), and Python lower-casing is modelled as per-character ASCII
lowercasing (all phrase cues in the source are ASCII).  The call
`dateutil.parser.parse` on a string made of a day, a month word and a
year (with `dayfirst=True`) is modelled at two levels.  `parseDMY` is
the month-word sub-model: lookup of the word in the English month-name
table of dateutil followed by calendar validation, with every other
word treated as the exception that the bare `except:` of the source
folds into `None`.  `dateutilParse` is the full token model: dateutil
also recognizes weekday names, time-unit words (HOURS, MINUTES, ...),
the jump word AND and the timezone words UTC/GMT, and for those it does
NOT raise: it fills the fields the string does not determine from its
default, the current datetime, and returns a best-guess date.  The
`_run` variants of the extractors thread that current datetime through;
the two models coincide whenever the word reaching dateutil is a month
name or a word dateutil does not recognize at all, which covers every
path pinned by the hypotheses of the theorems stated on the plain
extractors.  Python `datetime` values are modelled by `DateTime` below
(seconds
resolution; the `tz` field records presence of timezone information,
which the source strips before any arithmetic).  All embedded functions
are total Lean functions returning `Option`, mirroring the
never-raises/`None`-on-failure behaviour of the source.
-/

/-! ## Character utilities -/

def isDigitChar (c : Char) : Bool :=
  48 ≤ c.toNat && c.toNat ≤ 57

def isSpaceChar (c : Char) : Bool :=
  c == ' ' || c == '\t' || c == '\n' || c == '\r' || c == '\x0b' || c == '\x0c'

def isUpperChar (c : Char) : Bool :=
  65 ≤ c.toNat && c.toNat ≤ 90

/-- Membership in the character class of ASCII letters plus the Latin-1
accented block, as used by the single-event regex of the source. -/
def isWordLetter (c : Char) : Bool :=
  (65 ≤ c.toNat && c.toNat ≤ 90) || (97 ≤ c.toNat && c.toNat ≤ 122) ||
    (192 ≤ c.toNat && c.toNat ≤ 255)

def lowerChar (c : Char) : Char :=
  if 65 ≤ c.toNat && c.toNat ≤ 90 then Char.ofNat (c.toNat + 32) else c

def lowerList (l : List Char) : List Char :=
  l.map lowerChar

def startsWithList : List Char → List Char → Bool
  | [], _ => true
  | _ :: _, [] => false
  | p :: ps, c :: cs => p == c && startsWithList ps cs

/-- Python substring containment (the `in` operator on strings). -/
def listContains (pat : List Char) : List Char → Bool
  | [] => startsWithList pat []
  | c :: cs => startsWithList pat (c :: cs) || listContains pat cs

/-- Python `str.count` (non-overlapping occurrences, left to right),
with explicit fuel bounding the scan length. -/
def countOccAux (pat : List Char) : Nat → List Char → Nat
  | 0, _ => 0
  | _ + 1, [] => 0
  | fuel + 1, c :: cs =>
    if startsWithList pat (c :: cs) then
      1 + countOccAux pat fuel ((c :: cs).drop pat.length)
    else
      countOccAux pat fuel cs

def countOcc (pat l : List Char) : Nat :=
  countOccAux pat l.length l

def digitsToNat (ds : List Char) : Nat :=
  ds.foldl (fun a c => a * 10 + (c.toNat - 48)) 0

/-- Portion of the text before the first newline (Python splits the text
at the first newline and keeps the head). -/
def firstLineOf (text : String) : List Char :=
  text.data.takeWhile (fun c => c != '\n')

/-- Number of newline-separated lines of the text (length of the Python
split on newline). -/
def linesCount (text : String) : Nat :=
  (text.data.filter (fun c => c == '\n')).length + 1

/-! ## Regex matchers

`dayMonthSearch` embeds the search for a 1-2 digit day, optional
whitespace and a word of at least 3 letters (accented letters allowed),
and `weeklyRangeSearch` embeds the search for the parenthesized range:
an opening parenthesis, a 1-2 digit day, whitespace, exactly three
uppercase letters, a dash with optional surrounding whitespace, a second
day, whitespace, three uppercase letters and a closing parenthesis.
Both return the capture groups of the leftmost match.  At a fixed start
position the patterns are deterministic up to the digit group: a 1-2
digit greedy group followed by a non-digit requirement succeeds exactly
when the run of consecutive digits at the position has length 1 or 2 (a
longer run leaves a digit where a letter or a space is required, under
any backtracking), and then the group is the whole run. -/

/-- Digit group of the patterns: the digit run at the position must have
length 1 or 2 and is consumed whole. -/
def digits12 (l : List Char) : Option (Nat × List Char) :=
  let ds := l.takeWhile isDigitChar
  if 1 ≤ ds.length && ds.length ≤ 2 then
    some (digitsToNat ds, l.drop ds.length)
  else
    none

/-- Required whitespace between day and month in the range pattern. -/
def spaces1 (l : List Char) : Option (List Char) :=
  let ws := l.takeWhile isSpaceChar
  if 1 ≤ ws.length then some (l.drop ws.length) else none

/-- Optional whitespace around the dash of the range pattern. -/
def skipSpaces (l : List Char) : List Char :=
  l.dropWhile isSpaceChar

/-- Month group of the range pattern: exactly three uppercase ASCII
letters. -/
def month3 (l : List Char) : Option (List Char × List Char) :=
  match l with
  | a :: b :: c :: rest =>
    if isUpperChar a && isUpperChar b && isUpperChar c then
      some ([a, b, c], rest)
    else
      none
  | _ => none

def expectChar (ch : Char) : List Char → Option (List Char)
  | [] => none
  | c :: rest => if c == ch then some rest else none

/-- Match of the single-event day-month pattern anchored at the head of
`l`: returns the numeric day and the maximal (greedy) month word. -/
def matchDayMonthAt (l : List Char) : Option (Nat × List Char) := do
  let (d, l1) ← digits12 l
  let l2 := skipSpaces l1
  let w := l2.takeWhile isWordLetter
  if 3 ≤ w.length then pure (d, w) else none

def dayMonthSearch : List Char → Option (Nat × List Char)
  | [] => none
  | c :: cs =>
    match matchDayMonthAt (c :: cs) with
    | some r => some r
    | none => dayMonthSearch cs

/-- Capture groups of the weekly range pattern. -/
structure RangeGroups where
  d1 : Nat
  m1 : List Char
  d2 : Nat
  m2 : List Char
deriving DecidableEq

/-- Match of the parenthesized range pattern anchored at the head of
`l`. -/
def matchRangeAt (l : List Char) : Option RangeGroups := do
  let l ← expectChar '(' l
  let (d1, l) ← digits12 l
  let l ← spaces1 l
  let (m1, l) ← month3 l
  let l ← expectChar '-' (skipSpaces l)
  let (d2, l) ← digits12 (skipSpaces l)
  let l ← spaces1 l
  let (m2, l) ← month3 l
  let _ ← expectChar ')' l
  pure ⟨d1, m1, d2, m2⟩

def weeklyRangeSearch : List Char → Option RangeGroups
  | [] => none
  | c :: cs =>
    match matchRangeAt (c :: cs) with
    | some r => some r
    | none => weeklyRangeSearch cs

/-! ## Dates and times -/

/-- Model of a Python `datetime` at seconds resolution: `secs` is the
time of day in seconds, `tz` records attached timezone information
(only its presence matters: the source strips it before any use). -/
structure DateTime where
  year : Int
  month : Nat
  day : Nat
  secs : Nat
  tz : Option Int
deriving DecidableEq

/-- Timezone removal (Python `replace` with empty timezone info). -/
def stripTz (dt : DateTime) : DateTime :=
  { dt with tz := none }

def isLeap (y : Int) : Bool :=
  (y % 4 == 0 && y % 100 != 0) || y % 400 == 0

def daysInMonth (y : Int) (m : Nat) : Nat :=
  match m with
  | 1 => 31
  | 2 => if isLeap y then 29 else 28
  | 3 => 31
  | 4 => 30
  | 5 => 31
  | 6 => 30
  | 7 => 31
  | 8 => 31
  | 9 => 30
  | 10 => 31
  | 11 => 30
  | 12 => 31
  | _ => 0

def daysBeforeMonth (y : Int) (m : Nat) : Nat :=
  (List.range (m - 1)).foldl (fun acc i => acc + daysInMonth y (i + 1)) 0

/-- Proleptic Gregorian ordinal of the calendar day (as in the Python
`datetime.toordinal`). -/
def toOrdinal (dt : DateTime) : Int :=
  365 * (dt.year - 1) + Int.fdiv (dt.year - 1) 4 - Int.fdiv (dt.year - 1) 100 +
    Int.fdiv (dt.year - 1) 400 + (daysBeforeMonth dt.year dt.month : Int) + (dt.day : Int)

/-- Day count of the Python `timedelta` between two naive datetimes
(`(a - b).days`): the floored number of whole days. -/
def daysDiff (a b : DateTime) : Int :=
  Int.fdiv ((toOrdinal a - toOrdinal b) * 86400 + ((a.secs : Int) - (b.secs : Int))) 86400

/-- Comparison of naive Python datetimes (lexicographic on the calendar
fields, then time of day). -/
def dtLt (a b : DateTime) : Bool :=
  a.year < b.year ||
    (a.year == b.year && (a.month < b.month ||
      (a.month == b.month && (a.day < b.day ||
        (a.day == b.day && a.secs < b.secs)))))

/-- Python tuple comparison of (month, day) pairs. -/
def pairLt (a b : Nat × Nat) : Bool :=
  a.1 < b.1 || (a.1 == b.1 && a.2 < b.2)

/-- Year replacement on a datetime (Python `replace` with a year
argument): fails, i.e. raises and hence becomes `None` through the bare
`except:` of the source, when the day does not exist in the same month
of the target year. -/
def replaceYear (dt : DateTime) (y : Int) : Option DateTime :=
  if 1 ≤ dt.day && dt.day ≤ daysInMonth y dt.month then
    some { dt with year := y }
  else
    none

/-- English month-name table of dateutil (lower-cased), as consulted
when parsing a day, month word and year. -/
def monthNames : List (String × Nat) :=
  [("jan", 1), ("january", 1), ("feb", 2), ("february", 2),
   ("mar", 3), ("march", 3), ("apr", 4), ("april", 4), ("may", 5),
   ("jun", 6), ("june", 6), ("jul", 7), ("july", 7),
   ("aug", 8), ("august", 8), ("sep", 9), ("sept", 9), ("september", 9),
   ("oct", 10), ("october", 10), ("nov", 11), ("november", 11),
   ("dec", 12), ("december", 12)]

def monthFromName (w : List Char) : Option Nat :=
  (monthNames.find? (fun p => p.1.data == lowerList w)).map (fun p => p.2)

/-- Month-word sub-model of the dateutil parse of a day number, word
and year (day first): month-table lookup plus calendar validation, any
other word treated as a parse failure (which the bare `except:` of the
source folds into `None`).  Words that dateutil recognizes as something
other than a month do NOT fail in the real library; that behaviour is
modelled by `dateutilParse` below, which agrees with this function
whenever the word is a month name (see `dateutilParse_month`). -/
def parseDMY (d : Nat) (w : List Char) (y : Int) : Option DateTime :=
  match monthFromName w with
  | none => none
  | some m =>
    if 1 ≤ d && d ≤ daysInMonth y m then
      some ⟨y, m, d, 0, none⟩
    else
      none

def weeklyPhrases : List String :=
  ["Here\x27s what\x27s going on", "this week", "Good evening",
   "what\x27s up this", "weekend", "Upcoming events"]

def calendarGlyph : List Char := "📅".data

def bulletGlyph : List Char := "•".data

/-- Embedding of `is_weekly_summary` from the source. -/
def is_weekly_summary (text : String) : Bool :=
  if listContains calendarGlyph text.data then
    weeklyPhrases.any (fun p => listContains (lowerList p.data) (lowerList text.data))
  else if (weeklyRangeSearch text.data).isSome then
    listContains bulletGlyph text.data
  else
    false

def dailyIndicators : List String :=
  ["today", "tonight", "this evening", "this afternoon",
   "happening now", "later today", "daily", "today\x27s"]

def scriptPatterns : List String :=
  ["• **", "   Facebook", "   Tickets", "   Ticketswap", "★ <a href="]

def dailyEmojis : List String :=
  ["✨", "🔥", "🎉", "🎊", "💫", "⭐"]

/-- Count of embedded Telegram message links in the text. -/
def telegramUrlCount (text : String) : Nat :=
  countOcc ("t.me/".data) text.data

/-- Shortness test of the source: at most 20 newline-separated lines. -/
def isShort (text : String) : Bool :=
  decide (linesCount text ≤ 20)

/-- First-line date test of the source: the single-event day-month
pattern matches somewhere in the first line. -/
def hasDateInFirstLine (text : String) : Bool :=
  (dayMonthSearch (firstLineOf text)).isSome

def hasTodayReference (text : String) : Bool :=
  dailyIndicators.any (fun p => listContains p.data (lowerList text.data))

def hasScriptPattern (text : String) : Bool :=
  scriptPatterns.any (fun p => listContains p.data text.data)

def hasDailyEmoji (text : String) : Bool :=
  dailyEmojis.any (fun p => listContains p.data text.data)

/-- Embedding of `is_daily_summary` from the source (the message-date
parameter is accepted but never read). -/
def is_daily_summary (text : String) (_message_date : DateTime) : Bool :=
  if hasScriptPattern text && hasTodayReference text &&
      decide (1 ≤ telegramUrlCount text) then
    true
  else if hasDailyEmoji text && hasTodayReference text &&
      decide (1 ≤ telegramUrlCount text) && isShort text then
    true
  else if hasTodayReference text && decide (1 ≤ telegramUrlCount text) &&
      isShort text && !hasDateInFirstLine text then
    true
  else if decide (2 ≤ telegramUrlCount text) && isShort text &&
      !hasDateInFirstLine text then
    true
  else
    false

/-- Regex match plus the two parse calls of
`extract_weekly_summary_date` (the source parses the end date first;
both must succeed). -/
def weeklyRawPair (text : String) (y : Int) : Option (DateTime × DateTime) :=
  match weeklyRangeSearch text.data with
  | none => none
  | some g =>
    match parseDMY g.d2 g.m2 y with
    | none => none
    | some e =>
      match parseDMY g.d1 g.m1 y with
      | none => none
      | some s => some (s, e)

/-- Far-past-start adjustment of `extract_weekly_summary_date`: when the
start is more than 7 whole days before the post datetime, both endpoints
are re-yeared to the year after the post (each replacement can raise,
hence `Option`). -/
def weeklyAdjust (pd : DateTime) (p : DateTime × DateTime) : Option (DateTime × DateTime) :=
  if daysDiff p.1 pd < -7 then
    match replaceYear p.1 (pd.year + 1) with
    | none => none
    | some s1 =>
      match replaceYear p.2 (pd.year + 1) with
      | none => none
      | some e1 => some (s1, e1)
  else
    some p

/-- Month-transition step of `extract_weekly_summary_date`: when the end
compares before the start, the end is re-yeared to the year after the
start; the end date is what is returned. -/
def weeklyWrap (p : DateTime × DateTime) : Option DateTime :=
  if dtLt p.2 p.1 then replaceYear p.2 (p.1.year + 1) else some p.2

/-- Embedding of `extract_weekly_summary_date` from the source. -/
def extract_weekly_summary_date (text : String) (post_date : DateTime) : Option DateTime :=
  let pd := stripTz post_date
  ((weeklyRawPair text pd.year).bind (weeklyAdjust pd)).bind weeklyWrap

/-- Embedding of `extract_regular_event_date` from the source. -/
def extract_regular_event_date (text : String) (post_date : DateTime) : Option DateTime :=
  match dayMonthSearch (firstLineOf text) with
  | none => none
  | some (d, w) =>
    let pd := stripTz post_date
    match parseDMY d w pd.year with
    | none => none
    | some ev =>
      if pairLt (ev.month, ev.day) (pd.month, pd.day) then
        replaceYear ev (pd.year + 1)
      else
        some ev

/-- Embedding of `extract_event_date` from the source: weekly extraction
first (only when the weekly test holds, and falling through when it
yields `None`), then the daily echo, then the regular path. -/
def extract_event_date (text : String) (post_date : DateTime) : Option DateTime :=
  let weeklyDate : Option DateTime :=
    if is_weekly_summary text then extract_weekly_summary_date text post_date
    else none
  match weeklyDate with
  | some d => some d
  | none =>
    if is_daily_summary text post_date then some (stripTz post_date)
    else extract_regular_event_date text post_date

/-- Classification tests as computed per message by
`scan_and_clean_channel`: the weekly-summary flag, the daily-summary
flag and the single-event first-line date test. -/
def classifyDecision (text : String) (pd : DateTime) : Bool × Bool × Bool :=
  (is_weekly_summary text, is_daily_summary text pd, hasDateInFirstLine text)

/-! ## The extractors under the full dateutil token model

The `_run` variants repeat the extractors with `dateutilParse` in place
of `parseDMY`, threading the current datetime `now` that dateutil uses
as its default.  They coincide with the plain extractors whenever every
word handed to dateutil is a month name or a word dateutil does not
recognize; they differ exactly on the best-guess tokens, which is what
claim C7 is about. -/

theorem stripTz_year (dt : DateTime) : (stripTz dt).year = dt.year := rfl

theorem stripTz_month (dt : DateTime) : (stripTz dt).month = dt.month := rfl

theorem stripTz_day (dt : DateTime) : (stripTz dt).day = dt.day := rfl

theorem replaceYear_year (dt dt' : DateTime) (y : Int) (h : replaceYear dt y = some dt') :
    dt'.year = y := by
  unfold replaceYear at h
  split at h
  · injection h with h
    subst h
    rfl
  · exact Option.noConfusion h

theorem month3_spec (l m rest : List Char) (h : month3 l = some (m, rest)) :
    m.length = 3 ∧ m.all isUpperChar = true := by
  unfold month3 at h
  split at h
  · split at h
    · rename_i hu
      injection h with h
      injection h with h1 h2
      subst h1
      simp_all [List.all]
    · exact Option.noConfusion h
  · exact Option.noConfusion h

theorem matchRangeAt_months (l : List Char) (g : RangeGroups) (h : matchRangeAt l = some g) :
    (g.m1.length = 3 ∧ g.m1.all isUpperChar = true) ∧
    (g.m2.length = 3 ∧ g.m2.all isUpperChar = true) := by
  unfold matchRangeAt at h
  simp only [bind, Option.bind_eq_some, pure, Option.some.injEq] at h
  obtain ⟨l1, h1, ⟨d1, l2⟩, h2, l3, h3, ⟨m1, l4⟩, h4, l5, h5, ⟨d2, l6⟩, h6, l7, h7,
    ⟨m2, l8⟩, h8, l9, h9, hg⟩ := h
  subst hg
  exact ⟨month3_spec _ _ _ h4, month3_spec _ _ _ h8⟩

theorem weeklyRangeSearch_months (l : List Char) (g : RangeGroups)
    (h : weeklyRangeSearch l = some g) :
    (g.m1.length = 3 ∧ g.m1.all isUpperChar = true) ∧
    (g.m2.length = 3 ∧ g.m2.all isUpperChar = true) := by
  induction l with
  | nil => exact Option.noConfusion h
  | cons c cs ih =>
    cases hm : matchRangeAt (c :: cs) with
    | some r =>
      simp only [weeklyRangeSearch, hm, Option.some.injEq] at h
      subst h
      exact matchRangeAt_months _ _ hm
    | none =>
      simp only [weeklyRangeSearch, hm] at h
      exact ih h

theorem extract_event_date_regular (text : String) (pd : DateTime)
    (hW : is_weekly_summary text = false) (hD : is_daily_summary text pd = false) :
    extract_event_date text pd = extract_regular_event_date text pd := by
  unfold extract_event_date
  simp [hW, hD]

theorem parseDMY_eval (d m : Nat) (w : List Char) (y : Int)
    (hm : monthFromName w = some m) (h1 : 1 ≤ d) (h2 : d ≤ daysInMonth y m) :
    parseDMY d w y = some ⟨y, m, d, 0, none⟩ := by
  unfold parseDMY
  rw [hm]
  simp [h1, h2]

theorem weekly_extract_eval (text : String) (pd : DateTime) (s e : DateTime)
    (hadj : (weeklyRawPair text pd.year).bind (weeklyAdjust (stripTz pd)) = some (s, e)) :
    extract_weekly_summary_date text pd = weeklyWrap (s, e) := by
  unfold extract_weekly_summary_date
  simp only [stripTz_year]
  rw [hadj]
  rfl

theorem extract_event_date_weekly (text : String) (pd : DateTime) (dt : DateTime)
    (hwk : is_weekly_summary text = true)
    (hx : extract_weekly_summary_date text pd = some dt) :
    extract_event_date text pd = some dt := by
  unfold extract_event_date
  simp [hwk, hx]

/-- Claim C1: single-event year rollover.  For a post that is neither a
weekly nor a daily summary and whose first line carries a day-month
token parsing against the post year, the resolver returns the parsed
month and day with the year rolled to the year after the post when the
(month, day) pair is lexicographically before the (month, day) of the
post date, and with the post year itself when the pair equals or follows
it. -/
theorem single_event_year_rollover (text : String) (pd : DateTime) (d m : Nat) (w : List Char)
    (hW : is_weekly_summary text = false)
    (hD : is_daily_summary text pd = false)
    (hs : dayMonthSearch (firstLineOf text) = some (d, w))
    (hm : monthFromName w = some m)
    (hd1 : 1 ≤ d) (hd2 : d ≤ daysInMonth pd.year m) :
    (pairLt (m, d) (pd.month, pd.day) = true →
      d ≤ daysInMonth (pd.year + 1) m →
      extract_event_date text pd = some ⟨pd.year + 1, m, d, 0, none⟩) ∧
    (pairLt (m, d) (pd.month, pd.day) = false →
      extract_event_date text pd = some ⟨pd.year, m, d, 0, none⟩) := by
  rw [extract_event_date_regular text pd hW hD]
  unfold extract_regular_event_date
  rw [hs]
  simp only [stripTz_year, stripTz_month, stripTz_day]
  rw [parseDMY_eval d m w pd.year hm hd1 hd2]
  constructor
  · intro hlt hv
    simp only [hlt, if_true]
    unfold replaceYear
    simp [hd1, hv]
  · intro hge
    simp [hge]

/-- Witness for claim C1 at the two spec examples: a post of 2024-11-10
with first line "15 JAN | Some Party" resolves to 2025-01-15, and a post
of 2024-09-06 with "6 SEP | Party" resolves to 2024-09-06. -/
theorem single_event_year_rollover_check :
    extract_event_date ("15 JAN | Some Party") ⟨2024, 11, 10, 0, none⟩ =
      some ⟨2025, 1, 15, 0, none⟩ ∧
    extract_event_date ("6 SEP | Party") ⟨2024, 9, 6, 0, none⟩ =
      some ⟨2024, 9, 6, 0, none⟩ :=
  ⟨(single_event_year_rollover ("15 JAN | Some Party") ⟨2024, 11, 10, 0, none⟩ 15 1
      (['J', 'A', 'N']) (by decide) (by decide) (by decide) (by decide) (by decide)
      (by decide)).1 (by decide) (by decide),
   (single_event_year_rollover ("6 SEP | Party") ⟨2024, 9, 6, 0, none⟩ 6 9
      (['S', 'E', 'P']) (by decide) (by decide) (by decide) (by decide) (by decide)
      (by decide)).2 (by decide)⟩

/-- Counterexample to claim C2 as stated: a text containing the calendar
glyph, a matching parenthesized range and bullet markers, but none of
the weekly phrase cues, is NOT classified as a weekly summary (the
glyph branch of `is_weekly_summary` returns early and the range check is
never reached); the daily test also fails and the resolver treats the
post as a single event. -/
theorem weekly_glyph_blocks_range_cex :
    listContains calendarGlyph ("📅 (04 AUG - 10 AUG)\n• FR: X".data) = true ∧
    (weeklyRangeSearch ("📅 (04 AUG - 10 AUG)\n• FR: X".data)).isSome = true ∧
    listContains bulletGlyph ("📅 (04 AUG - 10 AUG)\n• FR: X".data) = true ∧
    is_weekly_summary ("📅 (04 AUG - 10 AUG)\n• FR: X") = false ∧
    is_daily_summary ("📅 (04 AUG - 10 AUG)\n• FR: X") ⟨2024, 8, 1, 0, none⟩ = false ∧
    extract_event_date ("📅 (04 AUG - 10 AUG)\n• FR: X") ⟨2024, 8, 1, 0, none⟩ =
      some ⟨2024, 8, 4, 0, none⟩ := by
  decide

/-- Claim C2 amended: for every text that does NOT contain the calendar
glyph, matches the parenthesized date-range pattern and contains the
bullet marker glyph, the weekly-summary test returns true (so such a
text is classified weekly, not single-event, even when its first line
carries a single-event-looking date token). -/
theorem weekly_range_bullet_classification (text : String)
    (hglyph : listContains calendarGlyph text.data = false)
    (hrange : (weeklyRangeSearch text.data).isSome = true)
    (hbullet : listContains bulletGlyph text.data = true) :
    is_weekly_summary text = true := by
  unfold is_weekly_summary
  simp [hglyph, hrange, hbullet]

/-- Witness for the amended claim C2: a glyph-free text whose first line
both starts the range and matches the single-event date pattern is
classified weekly. -/
theorem weekly_range_bullet_classification_check :
    is_weekly_summary ("(04 AUG - 10 AUG)\n• FR: X") = true ∧
    hasDateInFirstLine ("(04 AUG - 10 AUG)\n• FR: X") = true :=
  ⟨weekly_range_bullet_classification ("(04 AUG - 10 AUG)\n• FR: X")
    (by decide) (by decide) (by decide), by decide⟩

/-- Counterexample to the example inside claim C3: for a post of
2024-01-05 with range "(20 DEC - 26 DEC)", the start parsed against the
post year is far in the future (not more than 7 days in the past), so no
year roll occurs: the resolver returns 2024-12-26, not the claimed
2025-12-26. -/
theorem weekly_far_past_example_cex :
    is_weekly_summary ("(20 DEC - 26 DEC)\n• A\n• B") = true ∧
    extract_event_date ("(20 DEC - 26 DEC)\n• A\n• B") ⟨2024, 1, 5, 0, none⟩ =
      some ⟨2024, 12, 26, 0, none⟩ ∧
    extract_event_date ("(20 DEC - 26 DEC)\n• A\n• B") ⟨2024, 1, 5, 0, none⟩ ≠
      some ⟨2025, 12, 26, 0, none⟩ := by
  decide

/-- Claim C3 amended (general rule unchanged, example corrected): for a
weekly-summary post whose parsed start date is more than 7 whole days
before the post datetime, both endpoints are re-yeared to the year after
the post before the end date is returned; the month-transition check is
then evaluated on the rolled pair, and with no transition the rolled end
date itself is returned. -/
theorem weekly_far_past_roll (text : String) (pd : DateTime) (s0 e0 s1 e1 : DateTime)
    (hwk : is_weekly_summary text = true)
    (hraw : weeklyRawPair text pd.year = some (s0, e0))
    (hfar : daysDiff s0 (stripTz pd) < -7)
    (hs1 : replaceYear s0 (pd.year + 1) = some s1)
    (he1 : replaceYear e0 (pd.year + 1) = some e1) :
    s1.year = pd.year + 1 ∧ e1.year = pd.year + 1 ∧
    extract_weekly_summary_date text pd = weeklyWrap (s1, e1) ∧
    (dtLt e1 s1 = false → extract_event_date text pd = some e1) := by
  have hadj : (weeklyRawPair text pd.year).bind (weeklyAdjust (stripTz pd)) = some (s1, e1) := by
    rw [hraw]
    unfold weeklyAdjust
    simp only [Option.some_bind, stripTz_year]
    rw [if_pos hfar, hs1, he1]
  refine ⟨replaceYear_year _ _ _ hs1, replaceYear_year _ _ _ he1,
    weekly_extract_eval text pd s1 e1 hadj, ?_⟩
  intro hge
  refine extract_event_date_weekly text pd _ hwk ?_
  rw [weekly_extract_eval text pd s1 e1 hadj]
  unfold weeklyWrap
  simp [hge]

/-- Witness for claim C3: a week of next January posted on 2024-12-28
parses almost a year in the past, triggers the roll of both endpoints
and resolves to the rolled end date 2025-01-07. -/
theorem weekly_far_past_roll_check :
    extract_event_date ("(01 JAN - 07 JAN)\n• A") ⟨2024, 12, 28, 0, none⟩ =
      some ⟨2025, 1, 7, 0, none⟩ :=
  (weekly_far_past_roll ("(01 JAN - 07 JAN)\n• A") ⟨2024, 12, 28, 0, none⟩
    ⟨2024, 1, 1, 0, none⟩ ⟨2024, 1, 7, 0, none⟩ ⟨2025, 1, 1, 0, none⟩ ⟨2025, 1, 7, 0, none⟩
    (by decide) (by decide) (by decide) (by decide) (by decide)).2.2.2 (by decide)

/-- Claim C4: weekly month-boundary wrap and return value.  For a
weekly-summary post, with (s, e) the start/end pair after the far-past
adjustment: when the end compares before the start, only the end is
re-yeared to the year after the start and that date is returned; when it
does not, the end is returned unchanged.  In both cases the resolver
returns the end of the range, never the start. -/
theorem weekly_wrap_returns_end (text : String) (pd : DateTime) (s e : DateTime)
    (hwk : is_weekly_summary text = true)
    (hadj : (weeklyRawPair text pd.year).bind (weeklyAdjust (stripTz pd)) = some (s, e)) :
    (dtLt e s = true → 1 ≤ e.day → e.day ≤ daysInMonth (s.year + 1) e.month →
      extract_event_date text pd = some { e with year := s.year + 1 }) ∧
    (dtLt e s = false → extract_event_date text pd = some e) := by
  have hx := weekly_extract_eval text pd s e hadj
  constructor
  · intro hlt h1 h2
    refine extract_event_date_weekly text pd _ hwk ?_
    rw [hx]
    unfold weeklyWrap
    simp only [hlt, if_true]
    unfold replaceYear
    simp [h1, h2]
  · intro hge
    refine extract_event_date_weekly text pd _ hwk ?_
    rw [hx]
    unfold weeklyWrap
    simp [hge]

/-- Witness for claim C4 at the two spec examples: a post of 2024-12-30
with range "(28 DEC - 03 JAN)" resolves to 2025-01-03 (end rolled past
the year boundary, start staying in 2024), and a post of 2024-08-04 with
range "(04 AUG - 10 AUG)" resolves to 2024-08-10. -/
theorem weekly_wrap_returns_end_check :
    extract_event_date ("(28 DEC - 03 JAN)\n• A") ⟨2024, 12, 30, 0, none⟩ =
      some ⟨2025, 1, 3, 0, none⟩ ∧
    extract_event_date ("(04 AUG - 10 AUG)\n• A") ⟨2024, 8, 4, 0, none⟩ =
      some ⟨2024, 8, 10, 0, none⟩ :=
  ⟨(weekly_wrap_returns_end ("(28 DEC - 03 JAN)\n• A") ⟨2024, 12, 30, 0, none⟩
      ⟨2024, 12, 28, 0, none⟩ ⟨2024, 1, 3, 0, none⟩ (by decide) (by decide)).1
      (by decide) (by decide) (by decide),
   (weekly_wrap_returns_end ("(04 AUG - 10 AUG)\n• A") ⟨2024, 8, 4, 0, none⟩
      ⟨2024, 8, 4, 0, none⟩ ⟨2024, 8, 10, 0, none⟩ (by decide) (by decide)).2 (by decide)⟩

/-- Claim C5: the daily-summary decision holds exactly when one of the
four disjuncts of the spec holds: template fragment with today-reference
and a link; celebratory emoji with today-reference, a link and a short
body; today-reference with a link, a short body and no first-line date;
or two links with a short body and no first-line date. -/
theorem daily_summary_rule (text : String) (pd : DateTime) :
    is_daily_summary text pd = true ↔
      (hasScriptPattern text = true ∧ hasTodayReference text = true ∧
        1 ≤ telegramUrlCount text) ∨
      (hasDailyEmoji text = true ∧ hasTodayReference text = true ∧
        1 ≤ telegramUrlCount text ∧ isShort text = true) ∨
      (hasTodayReference text = true ∧ 1 ≤ telegramUrlCount text ∧
        isShort text = true ∧ hasDateInFirstLine text = false) ∨
      (2 ≤ telegramUrlCount text ∧ isShort text = true ∧
        hasDateInFirstLine text = false) := by
  unfold is_daily_summary
  cases h1 : hasScriptPattern text <;> cases h2 : hasTodayReference text <;>
    cases h3 : hasDailyEmoji text <;> cases h4 : isShort text <;>
      cases h5 : hasDateInFirstLine text <;>
        by_cases h6 : 1 ≤ telegramUrlCount text <;>
          by_cases h7 : 2 ≤ telegramUrlCount text <;>
            simp_all

/-- Witness for claim C5: a short two-link text with a today-reference
and no first-line date is a daily summary via the third disjunct. -/
theorem daily_summary_rule_check :
    is_daily_summary ("Tonight!\nt.me/a\nt.me/b") ⟨2024, 1, 1, 0, none⟩ = true :=
  (daily_summary_rule ("Tonight!\nt.me/a\nt.me/b") ⟨2024, 1, 1, 0, none⟩).mpr
    (Or.inr (Or.inr (Or.inl ⟨by decide, by decide, by decide, by decide⟩)))

/-- Claim C6: daily-summary resolution echoes the post date.  When the
weekly path yields nothing (in particular when the weekly test is false)
and the daily test holds, the resolver returns the post datetime with
timezone information stripped, regardless of any date-like substrings in
the body. -/
theorem daily_summary_echoes_post_date (text : String) (pd : DateTime)
    (hw : is_weekly_summary text = true → extract_weekly_summary_date text pd = none)
    (hd : is_daily_summary text pd = true) :
    extract_event_date text pd = some (stripTz pd) := by
  unfold extract_event_date
  cases hwk : is_weekly_summary text with
  | false => simp [hwk, hd]
  | true => simp [hwk, hd, hw hwk]

/-- Witness for claim C6: a daily-summary text whose first line even
contains a single-event-looking date token still resolves to the post
date, with the timezone dropped. -/
theorem daily_summary_echoes_post_date_check :
    extract_event_date ("✨ Today\x27s picks 15 JAN\n• **Party**\n   Tickets\nt.me/rave/1")
      ⟨2024, 5, 2, 3600, some 120⟩ = some ⟨2024, 5, 2, 3600, none⟩ :=
  daily_summary_echoes_post_date
    ("✨ Today\x27s picks 15 JAN\n• **Party**\n   Tickets\nt.me/rave/1")
    ⟨2024, 5, 2, 3600, some 120⟩ (by decide) (by decide)

/-- Claim C8: classification is a pure function of the text.  The triple
of classification tests (weekly-summary test, daily-summary test,
single-event first-line test) is identical for any two post timestamps:
the weekly and single-event tests take only the text, and the
daily-summary test never reads its date parameter. -/
theorem classification_pure_in_text (text : String) (p1 p2 : DateTime) :
    classifyDecision text p1 = classifyDecision text p2 := rfl

/-- Claim C9: weekly classification falls through on range-parse
failure.  When the weekly test holds but weekly extraction yields
`none`, the resolver proceeds to the daily and single-event paths
instead of returning `none` immediately. -/
theorem weekly_failure_falls_through (text : String) (pd : DateTime)
    (hwk : is_weekly_summary text = true)
    (hfail : extract_weekly_summary_date text pd = none) :
    extract_event_date text pd =
      (if is_daily_summary text pd then some (stripTz pd)
       else extract_regular_event_date text pd) := by
  unfold extract_event_date
  simp [hwk, hfail]

/-- Witness for claim C9: a glyph-plus-phrase weekly text without any
parenthesized range fails weekly extraction and still resolves, as a
daily summary, to the post date. -/
theorem weekly_failure_falls_through_check :
    extract_event_date ("📅 what a weekend!\nTonight: t.me/a\nt.me/b")
      ⟨2024, 5, 2, 0, none⟩ = some ⟨2024, 5, 2, 0, none⟩ :=
  weekly_failure_falls_through ("📅 what a weekend!\nTonight: t.me/a\nt.me/b")
    ⟨2024, 5, 2, 0, none⟩ (by decide) (by decide)

/-- Claim C10: the weekly range pattern matches only month tokens of
exactly three uppercase ASCII letters; concretely, a lowercase range or
a full month name never triggers range-based weekly classification or
weekly date extraction, even with bullet markers present. -/
theorem weekly_range_months_uppercase :
    (∀ (l : List Char) (g : RangeGroups), weeklyRangeSearch l = some g →
      (g.m1.length = 3 ∧ g.m1.all isUpperChar = true) ∧
      (g.m2.length = 3 ∧ g.m2.all isUpperChar = true)) ∧
    is_weekly_summary ("(04 aug - 10 aug)\n• A") = false ∧
    extract_weekly_summary_date ("(04 aug - 10 aug)\n• A") ⟨2024, 8, 4, 0, none⟩ = none ∧
    is_weekly_summary ("(04 AUGUST - 10 AUGUST)\n• A") = false ∧
    extract_weekly_summary_date ("(04 AUGUST - 10 AUGUST)\n• A") ⟨2024, 8, 4, 0, none⟩ = none :=
  ⟨weeklyRangeSearch_months, by decide, by decide, by decide, by decide⟩

/-- Witness for claim C10: the range match of a well-formed uppercase
range yields three-uppercase-letter month groups. -/
theorem weekly_range_months_uppercase_check :
    ((⟨4, ['A', 'U', 'G'], 10, ['A', 'U', 'G']⟩ : RangeGroups).m1.length = 3 ∧
      (⟨4, ['A', 'U', 'G'], 10, ['A', 'U', 'G']⟩ : RangeGroups).m1.all isUpperChar = true) ∧
    ((⟨4, ['A', 'U', 'G'], 10, ['A', 'U', 'G']⟩ : RangeGroups).m2.length = 3 ∧
      (⟨4, ['A', 'U', 'G'], 10, ['A', 'U', 'G']⟩ : RangeGroups).m2.all isUpperChar = true) :=
  weekly_range_months_uppercase.1 ("(04 AUG - 10 AUG)".data)
    ⟨4, ['A', 'U', 'G'], 10, ['A', 'U', 'G']⟩ (by decide)
